import Mathlib

/-!
Verification development for `api_gen.py`, the source-to-source generator that
turns `api_functions.txt` descriptor lines into three Cython output files.
The Python code is shallowly embedded: the regular expressions `Line.PATTERN`
and `Line.SIG_PATTERN` are compiled, group by group, into backtracking
functional parsers (Python's `re` is a leftmost, greedy, backtracking engine;
every greedy quantifier in these patterns is followed by a character from a
disjoint class, so the quantifiers are embedded possessively, while the
optional groups keep their match-first/skip-second alternative structure).
-/

namespace ApiGen

/-- Decidable equality for `Except`, so that concrete runs of the fallible
operations can be settled by `decide`. -/
instance {ε α : Type} [DecidableEq ε] [DecidableEq α] : DecidableEq (Except ε α) :=
  fun x y =>
    match x, y with
    | .ok a, .ok b =>
      if h : a = b then .isTrue (by rw [h]) else .isFalse (fun hc => by
        cases hc
        exact h rfl)
    | .error a, .error b =>
      if h : a = b then .isTrue (by rw [h]) else .isFalse (fun hc => by
        cases hc
        exact h rfl)
    | .ok _, .error _ => .isFalse (fun hc => by cases hc)
    | .error _, .ok _ => .isFalse (fun hc => by cases hc)

/-! ### Character classes of the regular expressions -/

/-- The class `[a-zA-Z_]` (first character of an identifier). -/
def identStartChar (c : Char) : Bool := c.isAlpha || c = '_'

/-- The class `[a-zA-Z0-9_]` (later characters of an identifier). -/
def identRestChar (c : Char) : Bool := c.isAlpha || c.isDigit || c = '_'

/-- The class `[a-zA-Z0-9_,* ]` used for the `sig` group. -/
def sigChar (c : Char) : Bool :=
  c.isAlpha || c.isDigit || c = '_' || c = ',' || c = '*' || c = ' '

/-! ### Matching combinators -/

/-- Match a literal character sequence at the head of the input. -/
def litM : List Char → List Char → Option (List Char)
  | [], cs => some cs
  | _ :: _, [] => none
  | p :: ps, c :: cs => if c = p then litM ps cs else none

/-- Greedy `+` over a character class: one or more characters satisfying `p`. -/
def plus1 (p : Char → Bool) (cs : List Char) : Option (List Char × List Char) :=
  match cs.span p with
  | ([], _) => none
  | (t, r) => some (t, r)

/-- The token `[a-zA-Z_]+[a-zA-Z0-9_]*` (an identifier), matched greedily. -/
def identTok (cs : List Char) : Option (String × List Char) :=
  match cs with
  | [] => none
  | c :: rest =>
    if identStartChar c then
      match rest.span identRestChar with
      | (t, r) => some (String.mk (c :: t), r)
    else none

/-- The token `[0-9]+\.[0-9]+\.[0-9]+` (a version literal), as matched text. -/
def versionTok (cs : List Char) : Option (String × List Char) := do
  let (d1, cs) ← plus1 Char.isDigit cs
  let cs ← litM ['.'] cs
  let (d2, cs) ← plus1 Char.isDigit cs
  let cs ← litM ['.'] cs
  let (d3, cs) ← plus1 Char.isDigit cs
  some (String.mk (d1 ++ '.' :: d2 ++ '.' :: d3), cs)

/-! ### `Line.PATTERN`, compiled group by group -/

/-- Raw result of `Line.PATTERN.match`: the named groups of the regex. -/
structure RawMatch where
  mpi : Bool
  error : Bool
  min_version : Option String
  max_version : Option String
  code : String
  fname : String
  sig : String
deriving DecidableEq, Repr

/-- Groups `(?P<fname>...)[ ]*\((?P<sig>[a-zA-Z0-9_,* ]*)\)`.  `re.match` is a
prefix match, so input remaining after the closing parenthesis is ignored. -/
def matchNameSig (m e : Bool) (mn mx : Option String) (code : String)
    (cs : List Char) : Option RawMatch := do
  let (fn, cs) ← identTok cs
  let (_, cs) := cs.span (· = ' ')
  let cs ← litM ['('] cs
  let (sg, cs) := cs.span sigChar
  let _ ← litM [')'] cs
  some ⟨m, e, mn, mx, code, fn, String.mk sg⟩

/-- The `unsigned`-prefixed alternative of the `code` group
`(?P<code>(unsigned[ ]+)?[a-zA-Z_]+[a-zA-Z0-9_]*\**)[ ]+`; the capture
includes the literal, the spaces, the identifier and trailing asterisks. -/
def matchCodeU (m e : Bool) (mn mx : Option String) (cs : List Char) :
    Option RawMatch := do
  let cs ← litM ['u', 'n', 's', 'i', 'g', 'n', 'e', 'd'] cs
  let (sp, cs) ← plus1 (· = ' ') cs
  let (id1, cs) ← identTok cs
  let (st, cs) := cs.span (· = '*')
  let (_, cs) ← plus1 (· = ' ') cs
  matchNameSig m e mn mx ("unsigned" ++ String.mk sp ++ id1 ++ String.mk st) cs

/-- The plain alternative of the `code` group (no `unsigned` prefix). -/
def matchCodePlain (m e : Bool) (mn mx : Option String) (cs : List Char) :
    Option RawMatch := do
  let (id1, cs) ← identTok cs
  let (st, cs) := cs.span (· = '*')
  let (_, cs) ← plus1 (· = ' ') cs
  matchNameSig m e mn mx (id1 ++ String.mk st) cs

/-- The `code` group: try the `unsigned` alternative first (greedy optional
group), fall back to the plain alternative. -/
def matchCode (m e : Bool) (mn mx : Option String) (cs : List Char) :
    Option RawMatch :=
  matchCodeU m e mn mx cs <|> matchCodePlain m e mn mx cs

/-- The group `([ ]+)?`.  Both continuations start with a non-space character,
so consuming the maximal run of spaces is equivalent to the greedy optional
group with backtracking. -/
def matchOptSpaces (m e : Bool) (mn mx : Option String) (cs : List Char) :
    Option RawMatch :=
  match cs.span (· = ' ') with
  | (_, cs) => matchCode m e mn mx cs

/-- The group `(-(?P<max_version>([0-9]+\.[0-9]+\.[0-9]+)))?`. -/
def matchMaxV (m e : Bool) (mn : Option String) (cs : List Char) :
    Option RawMatch :=
  (do
    let cs ← litM ['-'] cs
    let (v, cs) ← versionTok cs
    matchOptSpaces m e mn (some v) cs)
  <|> matchOptSpaces m e mn none cs

/-- The group `(?P<min_version>([0-9]+\.[0-9]+\.[0-9]+))?`. -/
def matchMinV (m e : Bool) (cs : List Char) : Option RawMatch :=
  (do
    let (v, cs) ← versionTok cs
    matchMaxV m e (some v) cs)
  <|> matchMaxV m e none cs

/-- The group `(?P<error>(ERROR)[ ]+)?`. -/
def matchErr (m : Bool) (cs : List Char) : Option RawMatch :=
  (do
    let cs ← litM ['E', 'R', 'R', 'O', 'R'] cs
    let (_, cs) ← plus1 (· = ' ') cs
    matchMinV m true cs)
  <|> matchMinV m false cs

/-- The group `(?P<mpi>(MPI)[ ]+)?`. -/
def matchMpi (cs : List Char) : Option RawMatch :=
  (do
    let cs ← litM ['M', 'P', 'I'] cs
    let (_, cs) ← plus1 (· = ' ') cs
    matchErr true cs)
  <|> matchErr false cs

/-- `Line.PATTERN.match(text)`: anchored at the start of the text only. -/
def patternMatch (text : String) : Option RawMatch :=
  matchMpi text.data

/-! ### `Line.SIG_PATTERN.findall` -/

/-- The core of `SIG_PATTERN` after the optional `unsigned` prefix:
`(?:[a-zA-Z_]+[a-zA-Z0-9_]*\**)[ ]+[ *]*(?P<param>[a-zA-Z_]+[a-zA-Z0-9_]*)`;
returns the captured parameter name. -/
def sigMatchCore (cs : List Char) : Option (String × List Char) := do
  let (_, cs) ← identTok cs
  let (_, cs) := cs.span (· = '*')
  let (_, cs) ← plus1 (· = ' ') cs
  let (_, cs) := cs.span (fun c => c = ' ' || c = '*')
  identTok cs

/-- One attempted `SIG_PATTERN` match at the current position:
`(?:unsigned[ ]+)?` first with the prefix, then without. -/
def sigMatchAt (cs : List Char) : Option (String × List Char) :=
  (do
    let cs ← litM ['u', 'n', 's', 'i', 'g', 'n', 'e', 'd'] cs
    let (_, cs) ← plus1 (· = ' ') cs
    sigMatchCore cs)
  <|> sigMatchCore cs

/-- `re.findall` scan: try a match at each position left to right; on success
collect the captured group and resume after the matched text (matches are at
least three characters long, so the fuel `length + 1` never runs out). -/
def findallGo : Nat → List Char → List String
  | 0, _ => []
  | _ + 1, [] => []
  | fuel + 1, c :: cs =>
    match sigMatchAt (c :: cs) with
    | some (p, rest) => p :: findallGo fuel rest
    | none => findallGo fuel cs

/-- `Line.SIG_PATTERN.findall(s)`: the parameter names, left to right. -/
def findallParams (s : String) : List String :=
  findallGo (s.length + 1) s.data

/-- Python's `str.replace('const', '')`: delete every non-overlapping
occurrence of `const`, scanning left to right (at each position, a `const`
prefix is removed, otherwise the character is kept). -/
def stripConstL : List Char → List Char
  | 'c' :: 'o' :: 'n' :: 's' :: 't' :: cs => stripConstL cs
  | c :: cs => c :: stripConstL cs
  | [] => []

/-- `sig.replace('const', '')` at the `String` level. -/
def stripConst (s : String) : String := String.mk (stripConstL s.data)

/-! ### The `Line` object -/

/-- Python's `str.split(sep)` for a one-character separator (empty pieces are
kept, as in Python). -/
def splitCharL (sep : Char) : List Char → List (List Char)
  | [] => [[]]
  | c :: cs =>
    if c = sep then [] :: splitCharL sep cs
    else
      match splitCharL sep cs with
      | [] => [[c]]
      | g :: gs => (c :: g) :: gs

/-- Python's `int()` on the digit-only strings admitted by the grammar. -/
def pyInt (s : String) : Nat :=
  s.data.foldl (fun n c => n * 10 + (c.toNat - 48)) 0

/-- `tuple(int(x) for x in v.split('.'))` on a version literal. -/
def parseVersion (s : String) : List Nat :=
  (splitCharL '.' s.data).map (fun g => pyInt (String.mk g))

/-- Python's `sep.join(parts)`. -/
def pyJoin (sep : String) (parts : List String) : String :=
  match parts with
  | [] => ""
  | x :: xs => xs.foldl (fun acc y => acc ++ sep ++ y) x

/-- The `Line` object of `api_gen.py`: one parsed function-descriptor line. -/
structure Line where
  mpi : Bool
  error : Bool
  min_version : Option (List Nat)
  max_version : Option (List Nat)
  code : String
  fname : String
  sig : String
  args : String
deriving DecidableEq, Repr

/-- `Line.__init__(text)`.  On a failed `PATTERN.match` it raises
`ValueError("Invalid line encountered: ...")`.  The source also guards
`self.args is None`, but `re.findall` always returns a list (possibly empty),
never `None`, so that guard can never fire and is not a reachable branch. -/
def parseLine (text : String) : Except String Line :=
  match patternMatch text with
  | none => .error ("Invalid line encountered: " ++ text)
  | some m =>
    .ok { mpi := m.mpi, error := m.error,
          min_version := m.min_version.map parseVersion,
          max_version := m.max_version.map parseVersion,
          code := m.code, fname := m.fname, sig := m.sig,
          args := pyJoin ", " (findallParams (stripConst m.sig)) }

/-! ### `LineProcessor.add_cython_if` -/

/-- Python's `code.replace('\n', '\n    ', k)`: rewrite the first `k` newline
characters to a newline plus four spaces, leave the rest untouched.  (The
source calls it with `k = code.count('\n') - 1`; when the count is zero the
Python argument is `-1`, meaning "replace all", but then there is no newline
to replace, so the natural-number truncation to `0` is behaviourally equal.) -/
def replaceNLk : Nat → List Char → List Char
  | _, [] => []
  | k, c :: cs =>
    if c = '\n' then
      match k with
      | 0 => c :: cs
      | k' + 1 => c :: ' ' :: ' ' :: ' ' :: ' ' :: replaceNLk k' cs
    else c :: replaceNLk k cs

/-- The inner `wrapif(condition, code)` of `add_cython_if`: re-indent every
newline but the last, then prepend `IF condition:` with one indent level. -/
def wrapif (condition code : String) : String :=
  "IF " ++ condition ++ ":\n    " ++
    String.mk (replaceNLk (code.data.count '\n' - 1) code.data)

/-- Python's `str(tuple)` on a version tuple, e.g. `(1, 8, 12)` (the grammar
always yields three components, so the one-element special case of Python's
tuple formatting cannot arise). -/
def pyTuple (v : List Nat) : String :=
  "(" ++ pyJoin ", " (v.map toString) ++ ")"

/-- `LineProcessor.add_cython_if(block)`: wrap in the MPI guard first (when
`line.mpi`), then in the applicable version guard (when a bound is present). -/
def add_cython_if (l : Line) (block : String) : String :=
  let b1 := if l.mpi then wrapif "MPI" block else block
  match l.min_version, l.max_version with
  | some mn, some mx =>
    wrapif ("HDF5_VERSION >= " ++ pyTuple mn ++ " and HDF5_VERSION <= " ++ pyTuple mx) b1
  | some mn, none => wrapif ("HDF5_VERSION >= " ++ pyTuple mn) b1
  | none, some mx => wrapif ("HDF5_VERSION <= " ++ pyTuple mx) b1
  | none, none => b1

/-! ### The three emitters -/

/-- Python's whitespace set for `str.strip()` (ASCII part: space, tab,
newline, carriage return, vertical tab, form feed). -/
def pyWS (c : Char) : Bool :=
  c = ' ' || c = '\t' || c = '\n' || c = '\r' || c = '\x0b' || c = '\x0c'

/-- Python's `str.strip()`: drop leading and trailing whitespace. -/
def pyStrip (s : String) : String :=
  String.mk (((s.data.dropWhile pyWS).reverse.dropWhile pyWS).reverse)

/-- Python's `str.startswith(p)`. -/
def pyStarts (s p : String) : Bool := p.data.isPrefixOf s.data

/-- Python's `s.split('\n')` as a list of strings. -/
def splitNLs (s : String) : List String :=
  (splitCharL '\n' s.data).map String.mk

/-- `LineProcessor.write_raw_sig`: the fragment appended to `_hdf5.pxd`. -/
def write_raw_sig (l : Line) : String :=
  let raw := l.code ++ " " ++ l.fname ++ "(" ++ l.sig ++ ") except *\n"
  let raw := add_cython_if l raw
  pyJoin "\n" ((splitNLs raw).map (fun x => if 0 < (pyStrip x).length then "  " ++ x else x))

/-- `LineProcessor.write_cython_sig`: the fragment appended to `defs.pxd`. -/
def write_cython_sig (l : Line) : String :=
  add_cython_if l ("cdef " ++ l.code ++ " " ++ l.fname ++ "(" ++ l.sig ++ ") except *\n")

/-- The class `[a-zA-Z_]` of the return-type pattern's third token. -/
def identAlChar (c : Char) : Bool := c.isAlpha || c = '_'

/-- Tail of `re.match(r'H5[A-Z]+_[a-zA-Z_]+_t', code)` after `H5[A-Z]+_`:
does the remainder start with `[a-zA-Z_]+` followed by `_t`?  (Existence of a
split is exactly what the backtracking engine decides; trailing characters
are ignored because `re.match` is a prefix match.) -/
def h5TailOK (cs : List Char) : Bool :=
  (List.range (cs.length + 1)).any (fun i =>
    decide (1 ≤ i) && (cs.take i).all identAlChar &&
      ['_', 't'].isPrefixOf (cs.drop i))

/-- `re.match(r'H5[A-Z]+_[a-zA-Z_]+_t', code)` as a Boolean. -/
def h5SignedMatch (code : String) : Bool :=
  match code.data with
  | 'H' :: '5' :: rest =>
    match rest.span Char.isUpper with
    | ([], _) => false
    | (_ :: _, rest2) =>
      match rest2 with
      | '_' :: rest3 => h5TailOK rest3
      | _ => false
  | _ => false

/-- The return-type classification of `write_cython_imp` (lines 227-238):
failure condition and sentinel, or the `ValueError` message.  (`code in
('H5T_conv_t',)` is membership in a one-element tuple, i.e. equality.) -/
def writeCondRetval (code : String) : Except String (String × String) :=
  if code.data.any (· = '*') ∨ code = "H5T_conv_t" then .ok ("==NULL", "NULL")
  else if code ∈ ["int", "herr_t", "htri_t", "hid_t", "hssize_t", "ssize_t"]
      ∨ h5SignedMatch code then .ok ("<0", "-1")
  else if code ∈ ["unsigned int", "haddr_t", "hsize_t", "size_t"] then .ok ("==0", "0")
  else .error ("Return code <<" ++ code ++ ">> unknown")

/-- Python's `str` of a Bool, as produced by `{0.error}` in the template. -/
def pyBool (b : Bool) : String := if b then "True" else "False"

/-- The wrapper-implementation template of `write_cython_imp`, with the
`{0.code}`, `{0.fname}`, `{0.sig}`, `{0.args}`, `{0.error}`, `{condition}`
and `{retval}` slots filled in. -/
def impTemplate (l : Line) (condition retval : String) : String :=
  "cdef " ++ l.code ++ " " ++ l.fname ++ "(" ++ l.sig ++ ") except *:\n" ++
  "    cdef " ++ l.code ++ " r\n" ++
  "    _hdf5.H5Eset_auto(NULL, NULL)\n" ++
  "    r = _hdf5." ++ l.fname ++ "(" ++ l.args ++ ")\n" ++
  "    if r" ++ condition ++ ":\n" ++
  "        if set_exception():\n" ++
  "            return <" ++ l.code ++ ">" ++ retval ++ "\n" ++
  "        elif " ++ pyBool l.error ++ ":\n" ++
  "            raise RuntimeError(\"Unspecified error in " ++ l.fname ++
      " (return value " ++ condition ++ ")\")\n" ++
  "    return r\n" ++
  "\n"

/-- `LineProcessor.write_cython_imp`: the fragment appended to `defs.pyx`,
or the `ValueError` for an unknown return type. -/
def write_cython_imp (l : Line) : Except String String :=
  match writeCondRetval l.code with
  | .error e => .error e
  | .ok (c, r) => .ok (add_cython_if l (impTemplate l c r))

/-! ### The per-run state and the main loop -/

/-- The three output streams of one generation run. -/
structure GenState where
  raw_defs : String
  cython_defs : String
  cython_imp : String
deriving DecidableEq, Repr

/-- `text.split(':')[0]`: the header name written into the `extern` fragment
(taken from the raw line, before any stripping). -/
def headerName (text : String) : String :=
  String.mk ((splitCharL ':' text.data).headD [])

/-- One iteration of the `for text in self.functions` loop of
`LineProcessor.run`.  An input line carries its trailing newline, as Python
file iteration yields it.  A raised `ValueError` aborts the run; the model
returns it as `Except.error` (the partially written streams of the aborted
run are not represented). -/
def processLine (st : GenState) (text : String) : Except String GenState :=
  if ¬ pyStarts text " " ∧ ¬ pyStarts text "#" ∧ 0 < (pyStrip text).length then
    .ok { st with
          raw_defs := st.raw_defs ++ "cdef extern from \"" ++ headerName text ++ ".h\":\n" }
  else
    let t := pyStrip text
    if t.length = 0 ∨ pyStarts t "#" then .ok st
    else
      match parseLine t with
      | .error e => .error e
      | .ok l =>
        match write_cython_imp l with
        | .error e => .error e
        | .ok imp =>
          .ok { raw_defs := st.raw_defs ++ write_raw_sig l,
                cython_defs := st.cython_defs ++ write_cython_sig l,
                cython_imp := st.cython_imp ++ imp }

/-- The `raw_preamble` written to `_hdf5.pxd`. -/
def raw_preamble : String :=
  "# cython: language_level=3\n#\n# Warning: this file is auto-generated from api_gen.py. DO NOT EDIT!\n#\n\ninclude \"config.pxi\"\nfrom .api_types_hdf5 cimport *\nfrom .api_types_ext cimport *\n\n"

/-- The `def_preamble` written to `defs.pxd`. -/
def def_preamble : String :=
  "# cython: language_level=3\n#\n# Warning: this file is auto-generated from api_gen.py. DO NOT EDIT!\n#\n\ninclude \"config.pxi\"\n\nfrom .api_types_hdf5 cimport *\nfrom .api_types_ext cimport *\n\n"

/-- The `imp_preamble` written to `defs.pyx`. -/
def imp_preamble : String :=
  "# cython: language_level=3\n#\n# Warning: this file is auto-generated from api_gen.py. DO NOT EDIT!\n#\n\ninclude \"config.pxi\"\nfrom .api_types_ext cimport *\nfrom .api_types_hdf5 cimport *\n\nfrom . cimport _hdf5\n\nfrom ._errors cimport set_exception\n"

/-- `LineProcessor.run`: write the three preambles, then process every input
line in order. -/
def runGen (input : List String) : Except String GenState :=
  input.foldlM processLine ⟨raw_preamble, def_preamble, imp_preamble⟩

/-! ### Auxiliary notions for stating the claims -/

/-- Substring test on character lists (used to state what an error message
does or does not mention). -/
def containsSub (hay needle : List Char) : Bool :=
  (List.range (hay.length + 1)).any (fun i => needle.isPrefixOf (hay.drop i))

/-- The class `[a-z0-9_]` of a lowercase identifier's characters. -/
def lowerIdentChar (c : Char) : Bool := c.isLower || c.isDigit || c = '_'

/-- The signed-status type pattern exactly as the specification words it:
"two-or-more-uppercase-letters + `_` + lowercase-identifier + `_t`", matching
the whole type name.  Stated here only to compare the spec's wording with the
source's actual pattern `H5[A-Z]+_[a-zA-Z_]+_t`. -/
def specSignedPattern (s : String) : Bool :=
  let cs := s.data
  (List.range (cs.length + 1)).any (fun i =>
    (List.range (cs.length + 1)).any (fun j =>
      decide (2 ≤ i) && decide (1 ≤ j) &&
      (cs.take i).all Char.isUpper &&
      ['_'].isPrefixOf (cs.drop i) &&
      ((cs.drop (i + 1)).take j).all lowerIdentChar &&
      decide ((cs.drop (i + 1)).drop j = ['_', 't'])))

/-- The header-directive classifier exactly as the specification words it:
"does not start with whitespace, does not start with `#`, non-blank after
trimming".  Stated here only to compare with the source's test, which checks
for a leading space character, not any whitespace. -/
def specHeaderDirective (text : String) : Bool :=
  (match text.data with
   | [] => true
   | c :: _ => !pyWS c) && !(pyStarts text "#") && decide (0 < (pyStrip text).length)

end ApiGen

namespace ApiGen

set_option maxRecDepth 10000

/-! ### Shared lemmas -/

/-- Every failure of `writeCondRetval` carries the `Return code <<...>>
unknown` message built from the return type alone. -/
theorem writeCondRetval_error_msg (s e : String)
    (h : writeCondRetval s = Except.error e) :
    e = "Return code <<" ++ s ++ ">> unknown" := by
  unfold writeCondRetval at h
  split_ifs at h
  cases h
  rfl

/-- Every success of `writeCondRetval` yields one of the three fixed
condition/sentinel pairs. -/
theorem writeCondRetval_ok_cases (s : String) (p : String × String)
    (h : writeCondRetval s = Except.ok p) :
    p = ("==NULL", "NULL") ∨ p = ("<0", "-1") ∨ p = ("==0", "0") := by
  unfold writeCondRetval at h
  split_ifs at h
  all_goals cases h
  all_goals simp

/-! ### C7 -/

/-- C7: the input line `MPI ERROR 1.8.12 int foo(char* a, size_t b)` parses to
a descriptor with `mpi = true`, `error = true`, `min_version = (1, 8, 12)`,
no maximum version, return type `int`, name `foo`, and the extracted call
arguments `a`, `b` in that order (joined as `"a, b"`). -/
theorem c7_concrete_parse :
    parseLine "MPI ERROR 1.8.12 int foo(char* a, size_t b)" =
      .ok ⟨true, true, some [1, 8, 12], none, "int", "foo", "char* a, size_t b", "a, b"⟩ ∧
    findallParams (stripConst "char* a, size_t b") = ["a", "b"] :=
  ⟨by decide, by decide⟩

/-! ### C8 -/

/-- C8: the input line `hid_t bar(void)` parses successfully with an empty
call-argument list (no error is raised), and the emitted implementation
fragment calls the native function with zero arguments: `r = _hdf5.bar()`. -/
theorem c8_void_signature :
    parseLine "hid_t bar(void)" =
      .ok ⟨false, false, none, none, "hid_t", "bar", "void", ""⟩ ∧
    findallParams (stripConst "void") = [] ∧
    write_cython_imp ⟨false, false, none, none, "hid_t", "bar", "void", ""⟩ =
      .ok ("cdef hid_t bar(void) except *:\n    cdef hid_t r\n    _hdf5.H5Eset_auto(NULL, NULL)\n    r = _hdf5.bar()\n    if r<0:\n        if set_exception():\n            return <hid_t>-1\n        elif False:\n            raise RuntimeError(\"Unspecified error in bar (return value <0)\")\n    return r\n\n") :=
  ⟨by decide, by decide, by decide⟩

/-! ### C3 -/

/-- C3: the function line `int foo(int)` has a non-empty parenthesized
parameter list (`"int"`), parameter-name extraction finds no matches, and yet
parsing succeeds with an empty argument list instead of raising: the source's
`args is None` guard can never fire because `re.findall` returns `[]`, not
`None`, so the line is silently treated as having zero parameters. -/
theorem c3_extraction_guard_dead :
    parseLine "int foo(int)" =
      .ok ⟨false, false, none, none, "int", "foo", "int", ""⟩ ∧
    stripConst "int" = "int" ∧
    findallParams "int" = [] ∧
    ("int" : String) ≠ "" :=
  ⟨by decide, by decide, by decide, by decide⟩

/-- C3 (amended): no function line ever raises an extraction failure — for
every line matched by the grammar, a descriptor is produced unconditionally,
its call arguments being whatever `findall` extracted (possibly nothing);
`re.findall` returns a list, never `None`, so the source's `args is None`
guard cannot fire. -/
theorem c3_no_extraction_failure (t : String) (m : RawMatch)
    (h : patternMatch t = some m) :
    parseLine t = .ok
      { mpi := m.mpi, error := m.error,
        min_version := m.min_version.map parseVersion,
        max_version := m.max_version.map parseVersion,
        code := m.code, fname := m.fname, sig := m.sig,
        args := pyJoin ", " (findallParams (stripConst m.sig)) } := by
  unfold parseLine
  rw [h]

/-- Witness for `c3_no_extraction_failure` at the line `int foo(int)`, whose
non-empty parameter list yields no extractable names. -/
theorem c3_witness :
    parseLine "int foo(int)" = .ok
      { mpi := false, error := false,
        min_version := (none : Option String).map parseVersion,
        max_version := (none : Option String).map parseVersion,
        code := "int", fname := "foo", sig := "int",
        args := pyJoin ", " (findallParams (stripConst "int")) } :=
  c3_no_extraction_failure "int foo(int)"
    ⟨false, false, none, none, "int", "foo", "int"⟩ (by decide)

/-! ### C2 -/

/-- C2 counterexample: a function line with extra text after the closing
parenthesis does not fail — `re.match` anchors only at the start, so the
trailing ` extra` is ignored and a descriptor is produced. -/
theorem c2_counterexample :
    parseLine "int foo(char* a) extra" =
      .ok ⟨false, false, none, none, "int", "foo", "char* a", "a"⟩ :=
  by decide

/-- C2 (amended): parsing succeeds whenever a prefix of the line matches the
grammar (trailing text after the closing parenthesis is ignored); whenever it
fails there is no partial descriptor, and the error names the whole offending
line. -/
theorem c2_failure_names_text (t e : String)
    (h : parseLine t = Except.error e) :
    e = "Invalid line encountered: " ++ t := by
  unfold parseLine at h
  cases hp : patternMatch t
  · rw [hp] at h
    cases h
    rfl
  · rw [hp] at h
    cases h

/-- Witness for `c2_failure_names_text` at the failing input `int foo(`. -/
theorem c2_witness :
    ∃ e, parseLine "int foo(" = Except.error e ∧
      e = "Invalid line encountered: " ++ "int foo(" :=
  ⟨"Invalid line encountered: int foo(", by decide,
    c2_failure_names_text "int foo(" _ (by decide)⟩

/-! ### C4 -/

/-- C4 counterexample: for `double foo(int a)` generation fails, but the
`UnknownReturnType` message is `Return code <<double>> unknown` — it names the
offending type and does not contain the function name `foo`. -/
theorem c4_counterexample :
    parseLine "double foo(int a)" =
      .ok ⟨false, false, none, none, "double", "foo", "int a", "a"⟩ ∧
    write_cython_imp ⟨false, false, none, none, "double", "foo", "int a", "a"⟩ =
      .error "Return code <<double>> unknown" ∧
    containsSub ("Return code <<double>> unknown").data ("foo").data = false :=
  ⟨by decide, by decide, by decide⟩

/-- C4 (amended): an unrecognized return type makes generation fail with a
message naming the offending type — but not the function name. -/
theorem c4_unknown_return_msg (l : Line) (e : String)
    (h : write_cython_imp l = Except.error e) :
    e = "Return code <<" ++ l.code ++ ">> unknown" := by
  unfold write_cython_imp at h
  cases hc : writeCondRetval l.code with
  | error msg =>
    rw [hc] at h
    cases h
    exact writeCondRetval_error_msg l.code e hc
  | ok p =>
    rw [hc] at h
    cases h

/-- Witness for `c4_unknown_return_msg` at a concrete descriptor with return
type `double`. -/
theorem c4_witness :
    ∃ e, write_cython_imp ⟨false, false, none, none, "double", "foo", "int a", "a"⟩ =
      Except.error e ∧ e = "Return code <<" ++ "double" ++ ">> unknown" :=
  ⟨"Return code <<double>> unknown", by decide,
    c4_unknown_return_msg ⟨false, false, none, none, "double", "foo", "int a", "a"⟩ _ (by decide)⟩

/-! ### C5 -/

/-- C5 counterexample: `AB_foo_t` matches the pattern exactly as the spec
words it (two-or-more uppercase letters, `_`, lowercase identifier, `_t`),
yet the source classifies it as unknown — its pattern is
`H5[A-Z]+_[a-zA-Z_]+_t`, which requires the literal `H5` prefix. -/
theorem c5_counterexample :
    specSignedPattern "AB_foo_t" = true ∧
    writeCondRetval "AB_foo_t" = .error "Return code <<AB_foo_t>> unknown" :=
  ⟨by decide, by decide⟩

/-- C5 (amended): a return type in the fixed alias set
`int, herr_t, htri_t, hid_t, hssize_t, ssize_t`, or matching the source's
pattern `H5[A-Z]+_[a-zA-Z_]+_t` as a prefix, is classified signed-status-like
(failure test `<0`, sentinel `-1`), provided the pointer-like rule does not
take precedence (no `*` in the type, and the type is not `H5T_conv_t`). -/
theorem c5_signed_classification (s : String)
    (h : s ∈ ["int", "herr_t", "htri_t", "hid_t", "hssize_t", "ssize_t"] ∨
      h5SignedMatch s = true)
    (hstar : s.data.any (· = '*') = false) (hconv : s ≠ "H5T_conv_t") :
    writeCondRetval s = Except.ok ("<0", "-1") := by
  unfold writeCondRetval
  rw [if_neg, if_pos]
  · exact h.imp id (fun hb => hb)
  · intro hc
    cases hc with
    | inl hc => simp [hstar] at hc
    | inr hc => exact hconv hc

/-- Witness for `c5_signed_classification` at the alias `herr_t`. -/
theorem c5_witness : writeCondRetval "herr_t" = Except.ok ("<0", "-1") :=
  c5_signed_classification "herr_t" (Or.inl (by decide)) (by decide) (by decide)

/-! ### Lemmas about `splitCharL` (for the header name) -/

/-- `splitCharL` never returns an empty list of pieces. -/
theorem splitCharL_ne_nil (sep : Char) (cs : List Char) : splitCharL sep cs ≠ [] := by
  induction cs with
  | nil => simp [splitCharL]
  | cons c cs ih =>
    unfold splitCharL
    by_cases hc : c = sep
    · simp [hc]
    · rw [if_neg hc]
      cases hs : splitCharL sep cs with
      | nil => exact absurd hs ih
      | cons g gs => simp

/-- The first piece of a split is the run of characters before the first
separator. -/
theorem splitCharL_headD (sep : Char) (cs : List Char) :
    (splitCharL sep cs).headD [] = cs.takeWhile (· ≠ sep) := by
  induction cs with
  | nil => rfl
  | cons c cs ih =>
    unfold splitCharL
    by_cases hc : c = sep
    · simp [hc, List.takeWhile]
    · rw [if_neg hc]
      cases hs : splitCharL sep cs with
      | nil => exact absurd hs (splitCharL_ne_nil sep cs)
      | cons g gs =>
        rw [hs] at ih
        simp [List.takeWhile, hc] at ih ⊢
        exact ih

/-- `takeWhile` keeps the whole list when no character is the separator. -/
theorem takeWhile_all_ne (sep : Char) (cs : List Char) (h : ∀ x ∈ cs, x ≠ sep) :
    cs.takeWhile (· ≠ sep) = cs := by
  induction cs with
  | nil => rfl
  | cons c cs ih =>
    have hc : (decide (c ≠ sep)) = true := by
      simp [h c (List.mem_cons_self c cs)]
    have ih' := ih (fun x hx => h x (List.mem_cons_of_mem _ hx))
    simp only [List.takeWhile_cons]
    rw [if_pos hc, ih']

/-! ### C9 -/

/-- C9 counterexample: the line `\tfoo\n` starts with a tab — whitespace, so
under the claim's classifier it is not a header directive — yet the source
tests only for a leading space character and treats it as a header directive,
writing an `extern` fragment to the raw-declaration stream. -/
theorem c9_counterexample :
    specHeaderDirective "\tfoo\n" = false ∧
    processLine ⟨"", "", ""⟩ "\tfoo\n" =
      .ok ⟨"cdef extern from \"\tfoo\n.h\":\n", "", ""⟩ :=
  ⟨by decide, by decide⟩

/-- C9 (amended): a line is classified as a header directive exactly when it
does not start with a space character (not: any whitespace), does not start
with `#`, and is non-blank after trimming; such a line appends the
`cdef extern from "....h":` fragment to the raw-declaration stream and leaves
the other two streams unchanged. -/
theorem c9_header_classification (st : GenState) (text : String)
    (h1 : ¬ pyStarts text " ") (h2 : ¬ pyStarts text "#")
    (h3 : 0 < (pyStrip text).length) :
    processLine st text =
      .ok ⟨st.raw_defs ++ "cdef extern from \"" ++ headerName text ++ ".h\":\n",
        st.cython_defs, st.cython_imp⟩ := by
  unfold processLine
  rw [if_pos ⟨h1, h2, h3⟩]

/-- Witness for `c9_header_classification` at the directive line `hdf5\n`. -/
theorem c9_witness :
    processLine ⟨"", "", ""⟩ "hdf5\n" =
      .ok ⟨"" ++ "cdef extern from \"" ++ headerName "hdf5\n" ++ ".h\":\n", "", ""⟩ :=
  c9_header_classification ⟨"", "", ""⟩ "hdf5\n" (by decide) (by decide) (by decide)

/-! ### C10 -/

/-- C10: for a header directive the emitted name is the raw line's text up to
(excluding) the first colon, taken before any whitespace trimming; when the
line contains no colon the name is the whole raw line — including its
trailing newline character, which is thus embedded in the emitted extern
declaration. -/
theorem c10_header_name (st : GenState) (text : String)
    (h1 : ¬ pyStarts text " ") (h2 : ¬ pyStarts text "#")
    (h3 : 0 < (pyStrip text).length) :
    processLine st text =
      .ok ⟨st.raw_defs ++ "cdef extern from \"" ++
            String.mk (text.data.takeWhile (· ≠ ':')) ++ ".h\":\n",
        st.cython_defs, st.cython_imp⟩ ∧
    ((∀ x ∈ text.data, x ≠ ':') →
      String.mk (text.data.takeWhile (· ≠ ':')) = text) := by
  constructor
  · unfold processLine
    rw [if_pos ⟨h1, h2, h3⟩]
    unfold headerName
    rw [splitCharL_headD]
  · intro hno
    rw [takeWhile_all_ne _ _ hno]

/-! ### Lemmas about `replaceNLk` (for the guard-nesting claims) -/

/-- `replaceNLk` copies a non-newline head character unchanged. -/
theorem replaceNLk_cons_ne (k : Nat) (c : Char) (cs : List Char) (h : ¬ c = '\n') :
    replaceNLk k (c :: cs) = c :: replaceNLk k cs := by
  simp only [replaceNLk]
  rw [if_neg h]

/-- The re-indentation step of `wrapif` preserves any newline-free prefix up
to and including the first newline after it. -/
theorem replaceNLk_keeps_prefix (k : Nat) (pre cs : List Char)
    (h : ∀ c ∈ pre, c ≠ '\n') :
    ∃ rest, replaceNLk k (pre ++ '\n' :: cs) = pre ++ '\n' :: rest := by
  induction pre with
  | nil =>
    simp only [List.nil_append]
    unfold replaceNLk
    rw [if_pos rfl]
    cases k with
    | zero => exact ⟨cs, rfl⟩
    | succ k' => exact ⟨' ' :: ' ' :: ' ' :: ' ' :: replaceNLk k' cs, rfl⟩
  | cons c pre ih =>
    obtain ⟨rest, hr⟩ := ih (fun x hx => h x (List.mem_cons_of_mem _ hx))
    refine ⟨rest, ?_⟩
    rw [List.cons_append, replaceNLk_cons_ne _ _ _ (h c (List.mem_cons_self c pre)), hr]
    rfl

/-- Wrapping an already-MPI-wrapped block in any `HDF5_VERSION...` guard
places the version guard outermost, with the `IF MPI:` line indented one
level inside it. -/
theorem wrap_version_over_mpi (v block : String) :
    ∃ rest : List Char, (wrapif ("HDF5_VERSION" ++ v) (wrapif "MPI" block)).data =
      ("IF HDF5_VERSION" : String).data ++ v.data ++
        (":\n    IF MPI:\n" : String).data ++ rest := by
  obtain ⟨rest, hr⟩ := replaceNLk_keeps_prefix
    ((wrapif "MPI" block).data.count '\n' - 1)
    (("IF MPI:" : String).data)
    (' ' :: ' ' :: ' ' :: ' ' :: replaceNLk (block.data.count '\n' - 1) block.data)
    (by decide)
  refine ⟨rest, ?_⟩
  have hform : (wrapif "MPI" block).data =
      ("IF MPI:" : String).data ++ '\n' ::
        (' ' :: ' ' :: ' ' :: ' ' ::
          replaceNLk (block.data.count '\n' - 1) block.data) := rfl
  have houter : (wrapif ("HDF5_VERSION" ++ v) (wrapif "MPI" block)).data =
      ("IF " : String).data ++ (("HDF5_VERSION" : String).data ++ v.data) ++
        (":\n    " : String).data ++
        replaceNLk ((wrapif "MPI" block).data.count '\n' - 1)
          ((wrapif "MPI" block).data) := by
    simp [wrapif, String.data_append]
  rw [houter]
  rw [show replaceNLk ((wrapif "MPI" block).data.count '\n' - 1)
        ((wrapif "MPI" block).data) =
      ("IF MPI:" : String).data ++ '\n' :: rest from hform ▸ hr]
  have e1 : ("IF " : String).data = ['I', 'F', ' '] := rfl
  have e2 : ("HDF5_VERSION" : String).data =
    ['H', 'D', 'F', '5', '_', 'V', 'E', 'R', 'S', 'I', 'O', 'N'] := rfl
  have e3 : (":\n    " : String).data = [':', '\n', ' ', ' ', ' ', ' '] := rfl
  have e4 : ("IF MPI:" : String).data = ['I', 'F', ' ', 'M', 'P', 'I', ':'] := rfl
  have e5 : ("IF HDF5_VERSION" : String).data =
    ['I', 'F', ' ', 'H', 'D', 'F', '5', '_', 'V', 'E', 'R', 'S', 'I', 'O', 'N'] := rfl
  have e6 : (":\n    IF MPI:\n" : String).data =
    [':', '\n', ' ', ' ', ' ', ' ', 'I', 'F', ' ', 'M', 'P', 'I', ':', '\n'] := rfl
  rw [e1, e2, e3, e4, e5, e6]
  simp [List.append_assoc]

/-! ### C1 -/

/-- C1 counterexample: for a descriptor with the capability annotation and a
minimum version, the wrapped fragment starts with the version guard, not the
capability guard — the capability guard is nested inside, contradicting
"capability guard outermost". -/
theorem c1_counterexample :
    add_cython_if ⟨true, true, some [1, 8, 12], none, "int", "foo", "char* a, size_t b", "a, b"⟩
        "x\n" =
      "IF HDF5_VERSION >= (1, 8, 12):\n    IF MPI:\n        x\n" ∧
    pyStarts "IF HDF5_VERSION >= (1, 8, 12):\n    IF MPI:\n        x\n" "IF MPI" = false :=
  ⟨by decide, by decide⟩

/-- C1 (amended): for every descriptor with `mpi` set and at least one
version bound, every wrapped fragment has the version guard outermost and
the capability guard `IF MPI:` nested one level inside it (the capability
guard is applied first and is therefore innermost). -/
theorem c1_version_guard_outermost (l : Line) (block : String)
    (hm : l.mpi = true) (hv : l.min_version ≠ none ∨ l.max_version ≠ none) :
    ∃ vcond rest, (add_cython_if l block).data =
      ("IF HDF5_VERSION" : String).data ++ vcond ++
        (":\n    IF MPI:\n" : String).data ++ rest := by
  unfold add_cython_if
  rw [hm]
  simp only [if_pos]
  rcases hmn : l.min_version with _ | mn <;> rcases hmx : l.max_version with _ | mx
  · rw [hmn, hmx] at hv
    simp at hv
  · have hsplit : ("HDF5_VERSION <= " : String) ++ pyTuple mx =
        "HDF5_VERSION" ++ (" <= " ++ pyTuple mx) := by
      rw [show ("HDF5_VERSION <= " : String) = "HDF5_VERSION" ++ " <= " from rfl,
        String.append_assoc]
    obtain ⟨rest, hr⟩ := wrap_version_over_mpi (" <= " ++ pyTuple mx) block
    refine ⟨(" <= " ++ pyTuple mx).data, rest, ?_⟩
    show (wrapif ("HDF5_VERSION <= " ++ pyTuple mx) (wrapif "MPI" block)).data = _
    rw [hsplit]
    exact hr
  · have hsplit : ("HDF5_VERSION >= " : String) ++ pyTuple mn =
        "HDF5_VERSION" ++ (" >= " ++ pyTuple mn) := by
      rw [show ("HDF5_VERSION >= " : String) = "HDF5_VERSION" ++ " >= " from rfl,
        String.append_assoc]
    obtain ⟨rest, hr⟩ := wrap_version_over_mpi (" >= " ++ pyTuple mn) block
    refine ⟨(" >= " ++ pyTuple mn).data, rest, ?_⟩
    show (wrapif ("HDF5_VERSION >= " ++ pyTuple mn) (wrapif "MPI" block)).data = _
    rw [hsplit]
    exact hr
  · have hsplit : ("HDF5_VERSION >= " : String) ++ pyTuple mn ++
          " and HDF5_VERSION <= " ++ pyTuple mx =
        "HDF5_VERSION" ++
          (" >= " ++ (pyTuple mn ++ (" and HDF5_VERSION <= " ++ pyTuple mx))) := by
      rw [show ("HDF5_VERSION >= " : String) = "HDF5_VERSION" ++ " >= " from rfl]
      simp only [String.append_assoc]
    obtain ⟨rest, hr⟩ := wrap_version_over_mpi
      (" >= " ++ (pyTuple mn ++ (" and HDF5_VERSION <= " ++ pyTuple mx))) block
    refine ⟨(" >= " ++ (pyTuple mn ++ (" and HDF5_VERSION <= " ++ pyTuple mx))).data,
      rest, ?_⟩
    show (wrapif ("HDF5_VERSION >= " ++ pyTuple mn ++ " and HDF5_VERSION <= " ++
      pyTuple mx) (wrapif "MPI" block)).data = _
    rw [hsplit]
    exact hr

/-- Witness for `c1_version_guard_outermost` at the C7 descriptor and a
one-line block. -/
theorem c1_witness :
    ∃ vcond rest,
      (add_cython_if ⟨true, true, some [1, 8, 12], none, "int", "foo",
          "char* a, size_t b", "a, b"⟩ "x\n").data =
        ("IF HDF5_VERSION" : String).data ++ vcond ++
          (":\n    IF MPI:\n" : String).data ++ rest :=
  c1_version_guard_outermost
    ⟨true, true, some [1, 8, 12], none, "int", "foo", "char* a, size_t b", "a, b"⟩
    "x\n" rfl (Or.inl (by decide))

/-! ### C10 witness -/

/-- Witness for `c10_header_name` at the colon-free directive line `foo\n`:
the extern fragment embeds the trailing newline inside the header name. -/
theorem c10_witness :
    (processLine ⟨"", "", ""⟩ "foo\n" =
      .ok ⟨"" ++ "cdef extern from \"" ++
            String.mk (("foo\n" : String).data.takeWhile (· ≠ ':')) ++ ".h\":\n",
        "", ""⟩ ∧
    ((∀ x ∈ ("foo\n" : String).data, x ≠ ':') →
      String.mk (("foo\n" : String).data.takeWhile (· ≠ ':')) = "foo\n")) ∧
    processLine ⟨"", "", ""⟩ "foo\n" =
      .ok ⟨"cdef extern from \"foo\n.h\":\n", "", ""⟩ :=
  ⟨c10_header_name ⟨"", "", ""⟩ "foo\n" (by decide) (by decide) (by decide), by decide⟩

/-- Peeling one separator-free line off the front of a split. -/
theorem splitCharL_append (sep : Char) (a b : List Char) (h : ∀ c ∈ a, c ≠ sep) :
    splitCharL sep (a ++ sep :: b) = a :: splitCharL sep b := by
  induction a with
  | nil =>
    show (if sep = sep then [] :: splitCharL sep b
      else match splitCharL sep b with
        | [] => [[sep]]
        | g :: gs => (sep :: g) :: gs) = [] :: splitCharL sep b
    rw [if_pos rfl]
  | cons c a ih =>
    have hc : ¬ c = sep := h c (List.mem_cons_self c a)
    show (if c = sep then [] :: splitCharL sep (a ++ sep :: b)
      else match splitCharL sep (a ++ sep :: b) with
        | [] => [[c]]
        | g :: gs => (c :: g) :: gs) = (c :: a) :: splitCharL sep b
    rw [if_neg hc, ih (fun x hx => h x (List.mem_cons_of_mem _ hx))]

/-- The implementation template decomposed into its ten lines (plus the
trailing blank line): every `\n` of the template surfaces as an explicit
separator. -/
theorem impTemplate_data (l : Line) (c r : String) :
    (impTemplate l c r).data =
      ("cdef " ++ l.code ++ " " ++ l.fname ++ "(" ++ l.sig ++ ") except *:").data ++ '\n' ::
      (("    cdef " ++ l.code ++ " r").data ++ '\n' ::
      (("    _hdf5.H5Eset_auto(NULL, NULL)" : String).data ++ '\n' ::
      (("    r = _hdf5." ++ l.fname ++ "(" ++ l.args ++ ")").data ++ '\n' ::
      (("    if r" ++ c ++ ":").data ++ '\n' ::
      (("        if set_exception():" : String).data ++ '\n' ::
      (("            return <" ++ l.code ++ ">" ++ r).data ++ '\n' ::
      (("        elif " ++ pyBool l.error ++ ":").data ++ '\n' ::
      (("            raise RuntimeError(\"Unspecified error in " ++ l.fname ++
          " (return value " ++ c ++ ")\")").data ++ '\n' ::
      (("    return r" : String).data ++ '\n' ::
      ('\n' :: [])))))))))) := by
  have f1 : (") except *:\n" : String).data = (") except *:" : String).data ++ '\n' :: [] := by decide
  have f2 : (" r\n" : String).data = (" r" : String).data ++ '\n' :: [] := by decide
  have f3 : ("    _hdf5.H5Eset_auto(NULL, NULL)\n" : String).data =
    ("    _hdf5.H5Eset_auto(NULL, NULL)" : String).data ++ '\n' :: [] := by decide
  have f4 : (")\n" : String).data = (")" : String).data ++ '\n' :: [] := by decide
  have f5 : (":\n" : String).data = (":" : String).data ++ '\n' :: [] := by decide
  have f6 : ("        if set_exception():\n" : String).data =
    ("        if set_exception():" : String).data ++ '\n' :: [] := by decide
  have f7 : ("\n" : String).data = '\n' :: [] := by decide
  have f8 : (")\")\n" : String).data = (")\")" : String).data ++ '\n' :: [] := by decide
  have f9 : ("    return r\n" : String).data =
    ("    return r" : String).data ++ '\n' :: [] := by decide
  simp only [impTemplate, String.data_append, f1, f2, f3, f4, f5, f6, f7, f8, f9,
    List.append_assoc, List.cons_append, List.nil_append]




/-- Newline-freeness is preserved by concatenation. -/
theorem noNL_append {a b : List Char} (ha : ∀ ch ∈ a, ch ≠ '\n')
    (hb : ∀ ch ∈ b, ch ≠ '\n') : ∀ ch ∈ a ++ b, ch ≠ '\n' := by
  intro ch hch
  rcases List.mem_append.mp hch with h | h
  · exact ha ch h
  · exact hb ch h

/-- C6: for every descriptor whose return type classifies successfully, the
emitted wrapper implementation is the guard-wrapped template whose lines, in
order, (1) declare the wrapper with the same signature, (2) declare the
result variable, (3) suppress the native default error handler
(`H5Eset_auto(NULL, NULL)`), (4) call the native function with the extracted
call arguments, (5) test the classification's failure condition, (6) first
give `set_exception` the chance to surface the error, (7) return the sentinel
when it did, (8)-(9) otherwise raise the generic `RuntimeError` naming the
function and the comparison only when the error flag is `True`, and (10) fall
through to return the native result unchanged. -/
theorem c6_imp_structure (l : Line) (c r : String)
    (hc : writeCondRetval l.code = Except.ok (c, r))
    (h1 : ∀ ch ∈ l.code.data, ch ≠ '\n') (h2 : ∀ ch ∈ l.fname.data, ch ≠ '\n')
    (h3 : ∀ ch ∈ l.sig.data, ch ≠ '\n') (h4 : ∀ ch ∈ l.args.data, ch ≠ '\n') :
    write_cython_imp l = .ok (add_cython_if l (impTemplate l c r)) ∧
    splitNLs (impTemplate l c r) =
      ["cdef " ++ l.code ++ " " ++ l.fname ++ "(" ++ l.sig ++ ") except *:",
       "    cdef " ++ l.code ++ " r",
       "    _hdf5.H5Eset_auto(NULL, NULL)",
       "    r = _hdf5." ++ l.fname ++ "(" ++ l.args ++ ")",
       "    if r" ++ c ++ ":",
       "        if set_exception():",
       "            return <" ++ l.code ++ ">" ++ r,
       "        elif " ++ pyBool l.error ++ ":",
       "            raise RuntimeError(\"Unspecified error in " ++ l.fname ++
          " (return value " ++ c ++ ")\")",
       "    return r", "", ""] := by
  have hcr := writeCondRetval_ok_cases l.code (c, r) hc
  have hcnl : ∀ ch ∈ c.data, ch ≠ '\n' := by
    rcases hcr with h | h | h <;>
      (injection h with hx hy; subst hx; exact (by decide))
  have hrnl : ∀ ch ∈ r.data, ch ≠ '\n' := by
    rcases hcr with h | h | h <;>
      (injection h with hx hy; subst hy; exact (by decide))
  have hbool : ∀ ch ∈ (pyBool l.error).data, ch ≠ '\n' := by
    cases l.error <;> exact (by decide)
  constructor
  · unfold write_cython_imp
    rw [hc]
  · have d1 : ∀ ch ∈ ("cdef " ++ l.code ++ " " ++ l.fname ++ "(" ++ l.sig ++
        ") except *:").data, ch ≠ '\n' := by
      simp only [String.data_append]
      exact noNL_append (noNL_append (noNL_append (noNL_append (noNL_append
        (noNL_append (by decide) h1) (by decide)) h2) (by decide)) h3) (by decide)
    have d2 : ∀ ch ∈ ("    cdef " ++ l.code ++ " r").data, ch ≠ '\n' := by
      simp only [String.data_append]
      exact noNL_append (noNL_append (by decide) h1) (by decide)
    have d3 : ∀ ch ∈ ("    _hdf5.H5Eset_auto(NULL, NULL)" : String).data, ch ≠ '\n' := by
      decide
    have d4 : ∀ ch ∈ ("    r = _hdf5." ++ l.fname ++ "(" ++ l.args ++ ")").data,
        ch ≠ '\n' := by
      simp only [String.data_append]
      exact noNL_append (noNL_append (noNL_append (noNL_append (by decide) h2)
        (by decide)) h4) (by decide)
    have d5 : ∀ ch ∈ ("    if r" ++ c ++ ":").data, ch ≠ '\n' := by
      simp only [String.data_append]
      exact noNL_append (noNL_append (by decide) hcnl) (by decide)
    have d6 : ∀ ch ∈ ("        if set_exception():" : String).data, ch ≠ '\n' := by
      decide
    have d7 : ∀ ch ∈ ("            return <" ++ l.code ++ ">" ++ r).data, ch ≠ '\n' := by
      simp only [String.data_append]
      exact noNL_append (noNL_append (noNL_append (by decide) h1) (by decide)) hrnl
    have d8 : ∀ ch ∈ ("        elif " ++ pyBool l.error ++ ":").data, ch ≠ '\n' := by
      simp only [String.data_append]
      exact noNL_append (noNL_append (by decide) hbool) (by decide)
    have d9 : ∀ ch ∈ ("            raise RuntimeError(\"Unspecified error in " ++
        l.fname ++ " (return value " ++ c ++ ")\")").data, ch ≠ '\n' := by
      simp only [String.data_append]
      exact noNL_append (noNL_append (noNL_append (noNL_append (by decide) h2)
        (by decide)) hcnl) (by decide)
    have d10 : ∀ ch ∈ ("    return r" : String).data, ch ≠ '\n' := by decide
    show (splitCharL '\n' (impTemplate l c r).data).map String.mk = _
    rw [impTemplate_data l c r]
    rw [splitCharL_append '\n' _ _ d1, splitCharL_append '\n' _ _ d2,
      splitCharL_append '\n' _ _ d3, splitCharL_append '\n' _ _ d4,
      splitCharL_append '\n' _ _ d5, splitCharL_append '\n' _ _ d6,
      splitCharL_append '\n' _ _ d7, splitCharL_append '\n' _ _ d8,
      splitCharL_append '\n' _ _ d9, splitCharL_append '\n' _ _ d10]
    rw [show splitCharL '\n' ('\n' :: []) = [[], []] from rfl]
    rfl

/-- Witness for `c6_imp_structure` at the parsed `hid_t bar(void)`
descriptor. -/
theorem c6_witness :
    write_cython_imp ⟨false, false, none, none, "hid_t", "bar", "void", ""⟩ =
      .ok (add_cython_if ⟨false, false, none, none, "hid_t", "bar", "void", ""⟩
        (impTemplate ⟨false, false, none, none, "hid_t", "bar", "void", ""⟩ "<0" "-1")) ∧
    splitNLs (impTemplate ⟨false, false, none, none, "hid_t", "bar", "void", ""⟩ "<0" "-1") =
      ["cdef " ++ "hid_t" ++ " " ++ "bar" ++ "(" ++ "void" ++ ") except *:",
       "    cdef " ++ "hid_t" ++ " r",
       "    _hdf5.H5Eset_auto(NULL, NULL)",
       "    r = _hdf5." ++ "bar" ++ "(" ++ "" ++ ")",
       "    if r" ++ "<0" ++ ":",
       "        if set_exception():",
       "            return <" ++ "hid_t" ++ ">" ++ "-1",
       "        elif " ++ pyBool false ++ ":",
       "            raise RuntimeError(\"Unspecified error in " ++ "bar" ++
          " (return value " ++ "<0" ++ ")\")",
       "    return r", "", ""] :=
  c6_imp_structure ⟨false, false, none, none, "hid_t", "bar", "void", ""⟩ "<0" "-1"
    (by decide) (by decide) (by decide) (by decide) (by decide)

end ApiGen
